import Mathlib

/-!
Verification of the pass-expiry computation of the imokx repository
(src/src/components/BotControlCard.tsx): `parsePeriod`, `addMonthsAndDays`
and `computeExpiry`.

The TypeScript source is shallowly embedded below.  Strings are Lean
strings (lists of Unicode scalar values), JS `number` values used as
integers become `Int`/`Nat`, and the JS `Date` object becomes a record of
its calendar fields (`DateTime`), with the `Date` constructor's and
`setDate`/`setFullYear`'s field normalization made explicit.
-/

/-! ## Character classes and scanning helpers -/

/-- The character class stripped by
`raw.replace(/[\s ​‌‍]+/g, "")` in `parsePeriod`:
the JS `\s` class (ASCII whitespace, NBSP, BOM, the Unicode space
separators, and the line/paragraph separators) together with the
explicitly listed zero-width characters U+200B..U+200D. -/
def isStrippable (c : Char) : Bool :=
  c.toNat == 0x09 || c.toNat == 0x0A || c.toNat == 0x0B || c.toNat == 0x0C ||
  c.toNat == 0x0D || c.toNat == 0x20 || c.toNat == 0xA0 || c.toNat == 0x1680 ||
  (0x2000 ≤ c.toNat && c.toNat ≤ 0x200A) ||
  c.toNat == 0x200B || c.toNat == 0x200C || c.toNat == 0x200D ||
  c.toNat == 0x2028 || c.toNat == 0x2029 || c.toNat == 0x202F ||
  c.toNat == 0x205F || c.toNat == 0x3000 || c.toNat == 0xFEFF

/-- `startsWith pat l` holds when `pat` is an initial segment of `l`
(the anchored-match step of the regex scan). -/
def startsWith : List Char → List Char → Bool
  | [], _ => true
  | _ :: _, [] => false
  | p :: ps, c :: cs => p == c && startsWith ps cs

/-- `hasSub pat l`: `pat` occurs contiguously somewhere in `l`
(the embedding of JS `String.prototype.includes`). -/
def hasSub (pat : List Char) : List Char → Bool
  | [] => startsWith pat []
  | c :: cs => startsWith pat (c :: cs) || hasSub pat cs

/-- One global regex scan `/(\d+)<unit>/g` over the text, summing the
captured integers (the JS `while ((m = regex.exec(txt)) !== null)` loop
with `Number(m[1])` accumulation).  A JS `exec` loop over `(\d+)개월`
(resp. `(\d+)일`) matches, at each position, a maximal nonempty digit
run immediately followed by the unit characters, and resumes after the
match; a digit run not followed by the unit yields no match anywhere
inside the run (backtracking cannot succeed because the run is
maximal), so the scan skips past it.

The first argument is the digit-run accumulator: `none` outside a
digit run, `some acc` inside a run whose decimal value so far is
`acc` (this is `Number(m[1])`, computed incrementally).  When the unit
matches after a run, the scan here resumes at the character after the
run's first non-digit instead of after the whole unit; since neither
unit contains a digit, no further match can begin inside the unit text
and the two resumption points yield the same sums. -/
def scanUnit (unit : List Char) : Option Nat → List Char → Nat
  | none, [] => 0
  | some acc, [] => if startsWith unit [] then acc else 0
  | none, c :: cs =>
    if c.isDigit then scanUnit unit (some (c.toNat - 48)) cs
    else scanUnit unit none cs
  | some acc, c :: cs =>
    if c.isDigit then scanUnit unit (some (acc * 10 + (c.toNat - 48))) cs
    else if startsWith unit (c :: cs) then acc + scanUnit unit none cs
    else scanUnit unit none cs

/-- Total of one unit's matches over the stripped text. -/
def sumUnit (unit : List Char) (l : List Char) : Nat :=
  scanUnit unit none l

/-! ## parsePeriod -/

/-- The record returned by `parsePeriod`:
`{ unlimited: boolean; months: number; days: number }`. -/
structure PeriodSpec where
  unlimited : Bool
  months : Nat
  days : Nat
deriving DecidableEq, Repr

/-- The month-unit characters of the regex `(\d+)개월`. -/
def monthUnit : List Char := ['개', '월']

/-- The day-unit characters of the regex `(\d+)일`. -/
def dayUnit : List Char := ['일']

/-- The unlimited marker scanned by `txt.includes("무제한")`. -/
def unlimitedMarker : List Char := ['무', '제', '한']

/-- Embedding of `parsePeriod` (BotControlCard.tsx, lines 231-248).
The source first applies `.normalize("NFKC")`; the catalog label strings
this function receives, and every string appearing in the claims, are
NFKC-normal already, so the normalization step is the identity on the
modelled domain and is embedded as such.  The whitespace/zero-width
strip (`replace(/[...]+/g, "")`) is the character filter, the unlimited
check is a substring test, and the two regex loops are the two
independent `sumUnit` scans over the same stripped text. -/
def parsePeriod (period : String) : PeriodSpec :=
  let txt := period.toList.filter (fun c => !isStrippable c)
  if hasSub unlimitedMarker txt then
    { unlimited := true, months := 0, days := 0 }
  else
    { unlimited := false
      months := sumUnit monthUnit txt
      days := sumUnit dayUnit txt }

/-! ## Calendar model (JS `Date` field view) -/

/-- The calendar fields of a JS `Date` in its local-time view: `year` is
`getFullYear()`, `month` is the 0-based `getMonth()`, `day` is
`getDate()` (1-based day of month), and `hour`/`minute`/`second`/`ms`
are the time-of-day fields. -/
structure DateTime where
  year : Int
  month : Nat
  day : Nat
  hour : Nat
  minute : Nat
  second : Nat
  ms : Nat
deriving DecidableEq, Repr

/-- Gregorian leap-year rule, as realised by JS `Date` month lengths. -/
def isLeap (y : Int) : Bool :=
  (y % 4 == 0 && y % 100 != 0) || y % 400 == 0

/-- Length of the 0-based month `m` of year `y`:
`new Date(y, m + 1, 0).getDate()` in the source.  Call sites only ever
pass `m ≤ 11`; the catch-all arm is unreachable there. -/
def daysInMonth (y : Int) (m : Nat) : Nat :=
  match m with
  | 0 => 31
  | 1 => if isLeap y then 29 else 28
  | 2 => 31
  | 3 => 30
  | 4 => 31
  | 5 => 30
  | 6 => 31
  | 7 => 31
  | 8 => 30
  | 9 => 31
  | 10 => 30
  | _ => 31

/-- Advance a valid date by one calendar day (the single-day step of
JS `Date` day-field normalization). -/
def nextDay (dt : DateTime) : DateTime :=
  if dt.day < daysInMonth dt.year dt.month then
    { dt with day := dt.day + 1 }
  else if dt.month < 11 then
    { dt with month := dt.month + 1, day := 1 }
  else
    { dt with year := dt.year + 1, month := 0, day := 1 }

/-- `afterMonths.setDate(afterMonths.getDate() + days)` for a
nonnegative day increment on a valid date: JS re-normalizes the
overflowed day field through the following months/years; iterated
single-day advance realises exactly that normalization.  Every caller
in the source passes the nonnegative `days` component of a
`PeriodSpec`. -/
def addDays (dt : DateTime) : Nat → DateTime
  | 0 => dt
  | n + 1 => addDays (nextDay dt) n

/-- Embedding of `addMonthsAndDays` (BotControlCard.tsx, lines
251-273).  `Math.floor(targetMonth / 12)` is floor division
(`Int.fdiv`).  JS `%` truncates toward zero, but the source's
`((targetMonth % 12) + 12) % 12` pattern exists precisely to produce
the floor remainder in `0..11`, and Lean's `%` (`Int.emod`) run
through the same expression yields that same value for every integer
`targetMonth`.  The `new Date(targetYear, normalizedMonth, finalDate,
...)` constructor performs no normalization because `finalDate` is
already clamped into range. -/
def addMonthsAndDays (base : DateTime) (months : Int) (days : Nat) : DateTime :=
  let targetMonth : Int := (base.month : Int) + months
  let targetYear : Int := base.year + targetMonth.fdiv 12
  let normalizedMonth : Nat := (((targetMonth % 12) + 12) % 12).toNat
  let endOfTargetMonth : Nat := daysInMonth targetYear normalizedMonth
  let finalDate : Nat := min base.day endOfTargetMonth
  let afterMonths : DateTime :=
    { year := targetYear, month := normalizedMonth, day := finalDate
      hour := base.hour, minute := base.minute
      second := base.second, ms := base.ms }
  addDays afterMonths days

/-- `d.setFullYear(y)`: replace the year and re-normalize the fields.
The only field that can have become invalid is the day (`Feb 29` of a
leap year under a non-leap target year); since `day ≤ 31` and every
month has at least 28 days, the JS normalization carries at most one
month forward. -/
def setFullYear (dt : DateTime) (y : Int) : DateTime :=
  let dim := daysInMonth y dt.month
  if dt.day ≤ dim then
    { dt with year := y }
  else if dt.month < 11 then
    { dt with year := y, month := dt.month + 1, day := dt.day - dim }
  else
    { dt with year := y + 1, month := 0, day := dt.day - dim }

/-- Embedding of `computeExpiry` (BotControlCard.tsx, lines 276-284):
parse the period label; on the unlimited marker return the base with
its year set to the 2099 sentinel, otherwise add the parsed months and
days to the base. -/
def computeExpiry (period : String) (base : DateTime) : DateTime :=
  let p := parsePeriod period
  if p.unlimited then setFullYear base 2099
  else addMonthsAndDays base p.months p.days

/-- The swapped-order variant discussed by the spec's order-sensitivity
property: apply the day increment to the base first, then perform the
month step (with its clamp). -/
def addDaysThenMonths (base : DateTime) (months : Int) (days : Nat) : DateTime :=
  addMonthsAndDays (addDays base days) months 0

/-- The month step of `addMonthsAndDays base months` clamps the
day-of-month: the base's day exceeds the last day of the target
month. -/
def monthStepClamps (base : DateTime) (months : Int) : Bool :=
  let targetMonth : Int := (base.month : Int) + months
  let targetYear : Int := base.year + targetMonth.fdiv 12
  let normalizedMonth : Nat := (((targetMonth % 12) + 12) % 12).toNat
  daysInMonth targetYear normalizedMonth < base.day

/-! ## Claims -/

/-- C1: `parsePeriod` sums every integer-plus-month-unit phrase into
`months` and every integer-plus-day-unit phrase into `days`, duplicate
unit phrases accumulating additively:
`parsePeriod "3개월 + 7일" = ⟨false, 3, 7⟩` and
`parsePeriod "12개월 + 3개월" = ⟨false, 15, 0⟩`. -/
theorem parsePeriod_accumulates_units :
    parsePeriod "3개월 + 7일" = ⟨false, 3, 7⟩ ∧
    parsePeriod "12개월 + 3개월" = ⟨false, 15, 0⟩ := by
  decide

/-- C2: for every base instant and month count, the month step of
`addMonthsAndDays` clamps the day-of-month to the last valid day of the
target month and leaves all time-of-day fields equal to the base's; in
particular 2024-01-31T10:00 plus one month is 2024-02-29T10:00 (leap
year month-end clamp). -/
theorem addMonthsAndDays_clamps_and_preserves_time
    (base : DateTime) (months : Int) :
    (addMonthsAndDays base months 0).day
      = min base.day
          (daysInMonth (addMonthsAndDays base months 0).year
            (addMonthsAndDays base months 0).month) ∧
    (addMonthsAndDays base months 0).hour = base.hour ∧
    (addMonthsAndDays base months 0).minute = base.minute ∧
    (addMonthsAndDays base months 0).second = base.second ∧
    (addMonthsAndDays base months 0).ms = base.ms ∧
    addMonthsAndDays ⟨2024, 0, 31, 10, 0, 0, 0⟩ 1 0
      = ⟨2024, 1, 29, 10, 0, 0, 0⟩ :=
  ⟨rfl, rfl, rfl, rfl, rfl, by decide⟩

/-- C3: `addMonthsAndDays` is the month step followed by a plain
calendar-day increment with no re-clamping (the day step may roll into
the next month or year); in particular 2023-01-31T10:00 plus one month
and seven days is 2023-03-07T10:00. -/
theorem addMonthsAndDays_months_before_days
    (base : DateTime) (months : Int) (days : Nat) :
    addMonthsAndDays base months days
      = addDays (addMonthsAndDays base months 0) days ∧
    addMonthsAndDays ⟨2023, 0, 31, 10, 0, 0, 0⟩ 1 7
      = ⟨2023, 2, 7, 10, 0, 0, 0⟩ :=
  ⟨rfl, by decide⟩

/-- C4: any input whose whitespace-stripped normalized form contains
the unlimited marker parses to `⟨true, 0, 0⟩`, regardless of
surrounding whitespace or unit phrases around the marker. -/
theorem parsePeriod_unlimited_marker (s : String)
    (h : hasSub unlimitedMarker
          (s.toList.filter (fun c => !isStrippable c)) = true) :
    parsePeriod s = ⟨true, 0, 0⟩ := by
  have h' : hasSub unlimitedMarker
      (List.filter (fun c => !isStrippable c) s.data) = true := h
  unfold parsePeriod
  simp [h']

/-- Witness for C4 at the input `" 무제한 + 3개월"`. -/
theorem parsePeriod_unlimited_marker_witness :
    hasSub unlimitedMarker
      (" 무제한 + 3개월".toList.filter (fun c => !isStrippable c)) = true ∧
    parsePeriod " 무제한 + 3개월" = ⟨true, 0, 0⟩ :=
  ⟨by decide, parsePeriod_unlimited_marker _ (by decide)⟩

/-- C5 (counterexample): the claim that the unlimited expiry keeps the
base's month and day for *every* base instant fails at a leap-day
base: `setFullYear(2099)` re-normalizes Feb-29 under the non-leap
target year 2099, so `computeExpiry "무제한" 2024-02-29T10:00` is
2099-03-01T10:00, not 2099-02-29T10:00. -/
theorem computeExpiry_unlimited_feb29 :
    (parsePeriod "무제한").unlimited = true ∧
    computeExpiry "무제한" ⟨2024, 1, 29, 10, 0, 0, 0⟩
      ≠ ⟨2099, 1, 29, 10, 0, 0, 0⟩ ∧
    computeExpiry "무제한" ⟨2024, 1, 29, 10, 0, 0, 0⟩
      = ⟨2099, 2, 1, 10, 0, 0, 0⟩ := by
  decide

/-- C5 (amended): for every raw string that parses as unlimited and
every base instant whose day-of-month is valid in year 2099 (which
excludes only Feb-29 bases), `computeExpiry` returns the base with its
year replaced by the 2099 sentinel and month, day and time-of-day
unchanged. -/
theorem computeExpiry_unlimited_sentinel (raw : String) (base : DateTime)
    (hu : (parsePeriod raw).unlimited = true)
    (hd : base.day ≤ daysInMonth 2099 base.month) :
    computeExpiry raw base =
      ⟨2099, base.month, base.day, base.hour, base.minute,
       base.second, base.ms⟩ := by
  obtain ⟨y, mo, d, hh, mi, ss, msf⟩ := base
  unfold computeExpiry setFullYear
  simp_all

/-- Witness for C5's amended theorem at `"무제한"` and base
2024-06-01T00:00. -/
theorem computeExpiry_unlimited_sentinel_witness :
    (parsePeriod "무제한").unlimited = true ∧
    (⟨2024, 5, 1, 0, 0, 0, 0⟩ : DateTime).day
      ≤ daysInMonth 2099 (⟨2024, 5, 1, 0, 0, 0, 0⟩ : DateTime).month ∧
    computeExpiry "무제한" ⟨2024, 5, 1, 0, 0, 0, 0⟩
      = ⟨2099, 5, 1, 0, 0, 0, 0⟩ :=
  ⟨by decide, by decide,
    computeExpiry_unlimited_sentinel "무제한" ⟨2024, 5, 1, 0, 0, 0, 0⟩
      (by decide) (by decide)⟩

/-- C6 (counterexample): the claim that days-before-months differs from
months-then-days *whenever* the month step clamps fails at
2023-01-31T10:00 with months = 1, days = 7: the month step clamps
(Jan-31 → Feb-28) yet both orders produce 2023-03-07T10:00. -/
theorem order_swap_agrees_despite_clamp :
    monthStepClamps ⟨2023, 0, 31, 10, 0, 0, 0⟩ 1 = true ∧
    addDaysThenMonths ⟨2023, 0, 31, 10, 0, 0, 0⟩ 1 7
      = addMonthsAndDays ⟨2023, 0, 31, 10, 0, 0, 0⟩ 1 7 := by
  decide

/-- C6 (amended): the months-then-days order is load-bearing — there
are inputs where the month step clamps and applying the day increment
first gives a different result: at 2023-01-30T10:00 with months = 1,
days = 1 the specified order yields 2023-03-01T10:00 while
days-before-months yields 2023-02-28T10:00. -/
theorem order_of_steps_matters :
    monthStepClamps ⟨2023, 0, 30, 10, 0, 0, 0⟩ 1 = true ∧
    addMonthsAndDays ⟨2023, 0, 30, 10, 0, 0, 0⟩ 1 1
      = ⟨2023, 2, 1, 10, 0, 0, 0⟩ ∧
    addDaysThenMonths ⟨2023, 0, 30, 10, 0, 0, 0⟩ 1 1
      = ⟨2023, 1, 28, 10, 0, 0, 0⟩ ∧
    addDaysThenMonths ⟨2023, 0, 30, 10, 0, 0, 0⟩ 1 1
      ≠ addMonthsAndDays ⟨2023, 0, 30, 10, 0, 0, 0⟩ 1 1 := by
  decide

/-- C7: `parsePeriod` is total — every string yields either the
unlimited record or a well-formed finite record whose components are
the two unit sums over the stripped text (malformed phrases simply
contribute nothing); in particular the empty string and garbage text
both yield `⟨false, 0, 0⟩`. -/
theorem parsePeriod_total_defaults (s : String) :
    (parsePeriod s = ⟨true, 0, 0⟩ ∨
      parsePeriod s =
        ⟨false,
         sumUnit monthUnit (s.toList.filter (fun c => !isStrippable c)),
         sumUnit dayUnit (s.toList.filter (fun c => !isStrippable c))⟩) ∧
    parsePeriod "" = ⟨false, 0, 0⟩ ∧
    parsePeriod "garbage text" = ⟨false, 0, 0⟩ := by
  refine ⟨?_, by decide, by decide⟩
  unfold parsePeriod
  by_cases h : hasSub unlimitedMarker
      (List.filter (fun c => !isStrippable c) s.data) = true
  · exact Or.inl (by simp [h])
  · exact Or.inr (by simp [h, sumUnit])

/-- C8: for every integer month offset (negative and over-12 offsets
included), the month addition of `addMonthsAndDays` carries into the
year with floor-division semantics: the target year is the base year
plus `⌊(baseMonth + months) / 12⌋` and the target month index is
`(baseMonth + months) mod 12`, normalized into `0..11`. -/
theorem addMonthsAndDays_year_carry (base : DateTime) (months : Int) :
    (addMonthsAndDays base months 0).year
      = base.year + ((base.month : Int) + months).fdiv 12 ∧
    ((addMonthsAndDays base months 0).month : Int)
      = ((base.month : Int) + months) % 12 ∧
    (addMonthsAndDays base months 0).month < 12 := by
  refine ⟨rfl, ?_, ?_⟩
  · show (((((((base.month : Int) + months) % 12) + 12) % 12).toNat : Nat) : Int)
      = ((base.month : Int) + months) % 12
    omega
  · show ((((((base.month : Int) + months) % 12) + 12) % 12).toNat : Nat) < 12
    omega

/-- C9: every `PeriodSpec` that `parsePeriod` returns satisfies the
invariant that `unlimited = true` implies `months = 0` and `days = 0`:
no output both carries the unlimited flag and a nonzero remainder. -/
theorem parsePeriod_unlimited_invariant (s : String)
    (h : (parsePeriod s).unlimited = true) :
    (parsePeriod s).months = 0 ∧ (parsePeriod s).days = 0 := by
  unfold parsePeriod at h ⊢
  by_cases hc : hasSub unlimitedMarker
      (List.filter (fun c => !isStrippable c) s.data) = true
  · simp [hc]
  · simp [hc] at h

/-- Witness for C9 at the input `"무제한"`. -/
theorem parsePeriod_unlimited_invariant_witness :
    (parsePeriod "무제한").unlimited = true ∧
    ((parsePeriod "무제한").months = 0 ∧ (parsePeriod "무제한").days = 0) :=
  ⟨by decide, parsePeriod_unlimited_invariant "무제한" (by decide)⟩

/-- C10: `addMonthsAndDays` with zero months and zero days is the
identity on every valid base instant (month index in `0..11`, day of
month within the month's length): all seven fields are returned
unchanged. -/
theorem addMonthsAndDays_zero_identity (base : DateTime)
    (hm : base.month < 12)
    (hd : base.day ≤ daysInMonth base.year base.month) :
    addMonthsAndDays base 0 0 = base := by
  obtain ⟨y, mo, d, hh, mi, ss, msf⟩ := base
  simp only at hm hd
  have h1 : (mo : Int).fdiv 12 = 0 := by
    rw [Int.fdiv_eq_ediv _ (by norm_num)]
    omega
  have h2 : ((mo : Int) % 12).toNat = mo := by
    omega
  simp [addMonthsAndDays, addDays, h1, h2, Nat.min_eq_left hd]

/-- Witness for C10 at the valid base 2024-06-15T10:30:00.000. -/
theorem addMonthsAndDays_zero_identity_witness :
    (⟨2024, 5, 15, 10, 30, 0, 0⟩ : DateTime).month < 12 ∧
    (⟨2024, 5, 15, 10, 30, 0, 0⟩ : DateTime).day
      ≤ daysInMonth (⟨2024, 5, 15, 10, 30, 0, 0⟩ : DateTime).year
          (⟨2024, 5, 15, 10, 30, 0, 0⟩ : DateTime).month ∧
    addMonthsAndDays ⟨2024, 5, 15, 10, 30, 0, 0⟩ 0 0
      = ⟨2024, 5, 15, 10, 30, 0, 0⟩ :=
  ⟨by decide, by decide,
    addMonthsAndDays_zero_identity ⟨2024, 5, 15, 10, 30, 0, 0⟩
      (by decide) (by decide)⟩
